import Mathlib

/-!
Shallow embedding of `weather_news_agent.py` (class `WeatherNewsAgent` and the
driver `main`).  Network calls are modelled by passing the decoded provider
responses as explicit arguments; every function below is translated from the
Python source.  Definitions whose name matches a Python method carry the same
name.
-/

/-- ASCII lowercasing of a string, modelling the Python `str.lower()` call
applied in `get_country_code` (the hardcoded city substrings are all ASCII). -/
def pyLower (s : String) : String := ⟨s.data.map Char.toLower⟩

/-- Does the character list start with the given list?  Auxiliary for the
Python substring operator `in`. -/
def leadsWith : List Char → List Char → Bool
  | [], _ => true
  | _ :: _, [] => false
  | a :: as, b :: bs => a = b && leadsWith as bs

/-- Does `needle` occur as a contiguous run inside the character list? -/
def hasSub (needle : List Char) : List Char → Bool
  | [] => needle.isEmpty
  | c :: rest => leadsWith needle (c :: rest) || hasSub needle rest

/-- The Python expression `needle in hay` on strings: substring containment. -/
def strContains (hay needle : String) : Bool := hasSub needle.data hay.data

/-- `WeatherNewsAgent.get_country_code`: lowercases the location and walks the
hardcoded `if any(city in location_lower ...)` chain, defaulting to `us`. -/
def get_country_code (location : String) : String :=
  let location_lower := pyLower location
  if (["new york", "los angeles", "chicago", "houston", "phoenix"].any
      fun city => strContains location_lower city) then "us"
  else if (["london", "manchester", "birmingham", "glasgow"].any
      fun city => strContains location_lower city) then "gb"
  else if (["toronto", "vancouver", "montreal", "calgary"].any
      fun city => strContains location_lower city) then "ca"
  else if (["sydney", "melbourne", "brisbane", "perth"].any
      fun city => strContains location_lower city) then "au"
  else if (["berlin", "munich", "hamburg", "frankfurt"].any
      fun city => strContains location_lower city) then "de"
  else if (["paris", "marseille", "lyon", "toulouse"].any
      fun city => strContains location_lower city) then "fr"
  else if (["madrid", "barcelona", "valencia", "seville"].any
      fun city => strContains location_lower city) then "es"
  else if (["moscow", "saint petersburg", "novosibirsk"].any
      fun city => strContains location_lower city) then "ru"
  else if (["beijing", "shanghai", "guangzhou", "shenzhen"].any
      fun city => strContains location_lower city) then "cn"
  else if (["mumbai", "delhi", "bangalore", "hyderabad"].any
      fun city => strContains location_lower city) then "in"
  else "us"

/-- Modelled from the spec: the static ordered table of
(country code, city substrings) pairs, in the fixed priority order
US, GB, CA, AU, DE, FR, ES, RU, CN, IN. -/
def country_table : List (String × List String) :=
  [("us", ["new york", "los angeles", "chicago", "houston", "phoenix"]),
   ("gb", ["london", "manchester", "birmingham", "glasgow"]),
   ("ca", ["toronto", "vancouver", "montreal", "calgary"]),
   ("au", ["sydney", "melbourne", "brisbane", "perth"]),
   ("de", ["berlin", "munich", "hamburg", "frankfurt"]),
   ("fr", ["paris", "marseille", "lyon", "toulouse"]),
   ("es", ["madrid", "barcelona", "valencia", "seville"]),
   ("ru", ["moscow", "saint petersburg", "novosibirsk"]),
   ("cn", ["beijing", "shanghai", "guangzhou", "shenzhen"]),
   ("in", ["mumbai", "delhi", "bangalore", "hyderabad"])]

/-- First-match lookup over an ordered (code, substrings) table; the default
result when no table entry matches is `us`. -/
def firstCountry (lower : String) : List (String × List String) → String
  | [] => "us"
  | (code, cities) :: rest =>
    if cities.any (fun city => strContains lower city) then code
    else firstCountry lower rest

/-- Modelled from the spec: lowercase the location, then first-match lookup in
the ordered table `country_table` with default `us`. -/
def resolve_country_spec (location : String) : String :=
  firstCountry (pyLower location) country_table

/-- The chain of conditionals in `get_country_code` is exactly the first-match
fold of `firstCountry` applied to the lowercased location and the table. -/
lemma country_code_unfold (s : String) :
    get_country_code s = firstCountry (pyLower s) country_table := rfl

/-- C1: for every location string, the country resolver lowercases it and
checks the ten hardcoded substring lists in the fixed order
US, GB, CA, AU, DE, FR, ES, RU, CN, IN, returning the code of the first list
with a matching substring, and `us` when none matches: `get_country_code`
coincides with the ordered-table first-match lookup `resolve_country_spec`. -/
theorem get_country_code_eq_table_lookup (location : String) :
    get_country_code location = resolve_country_spec location :=
  country_code_unfold location

/-- A first-match lookup either hits the default `us` or returns the code of
some table entry. -/
lemma firstCountry_mem (lower : String) (t : List (String × List String)) :
    firstCountry lower t = "us" ∨ firstCountry lower t ∈ t.map Prod.fst := by
  induction t with
  | nil => left; rfl
  | cons p rest ih =>
    obtain ⟨code, cities⟩ := p
    simp only [firstCountry]
    split
    · right; simp
    · rcases ih with h | h
      · left; exact h
      · right; simp [h]

/-- C9: the country resolver is total and deterministic, always returns one of
the ten lowercase two-letter codes, and two inputs that agree after
lowercasing resolve to the same code. -/
theorem get_country_code_range_and_case_insensitive :
    (∀ s : String, get_country_code s ∈
      (["us", "gb", "ca", "au", "de", "fr", "es", "ru", "cn", "in"] : List String)) ∧
    (∀ a b : String, pyLower a = pyLower b →
      get_country_code a = get_country_code b) := by
  constructor
  · intro s
    rw [country_code_unfold]
    rcases firstCountry_mem (pyLower s) country_table with h | h
    · rw [h]; decide
    · have ht : country_table.map Prod.fst =
          ["us", "gb", "ca", "au", "de", "fr", "es", "ru", "cn", "in"] := rfl
      rw [ht] at h
      exact h
  · intro a b h
    rw [country_code_unfold, country_code_unfold, h]

/-- Witness for C9 at concrete inputs. -/
theorem get_country_code_case_witness :
    get_country_code "LONDON" = get_country_code "london" :=
  get_country_code_range_and_case_insensitive.2 "LONDON" "london" (by decide)

/-- One article of the news provider response: `title` and `source.name` are
accessed as required keys in `get_local_news`. -/
structure Article where
  title : String
  source_name : String
deriving DecidableEq

/-- Decoded news provider response.  Fields read with Python `dict.get` are
`Option`s: `none` models an absent key. -/
structure NewsResp where
  status : Option String
  message : Option String
  articles : Option (List Article)
deriving DecidableEq

/-- One numbered entry of the rendered headline list, as appended per
iteration of the loop in `get_local_news`. -/
def newsEntry (i : Nat) (a : Article) : String :=
  "\n" ++ toString i ++ ". " ++ a.title ++ "\n   Source: " ++ a.source_name ++ "\n"

/-- The loop over `enumerate(articles[:5], 1)` in `get_local_news`, starting
from index `i`. -/
def formatArticles : Nat → List Article → String
  | _, [] => ""
  | i, a :: rest => newsEntry i a ++ formatArticles (i + 1) rest

/-- `WeatherNewsAgent.get_local_news`, with the decoded provider response for
the top-headlines request passed explicitly.  The `location` argument only
feeds the request URL via `get_country_code` in the source. -/
def get_local_news (location : String) (resp : NewsResp) : String :=
  if resp.status ≠ some "ok" then
    " Error fetching news: " ++ resp.message.getD "Unknown error"
  else
    let articles := resp.articles.getD []
    if articles.isEmpty then " No news available for this location"
    else "\nTOP HEADLINES:\n" ++ formatArticles 1 (articles.take 5)

/-- Appending the empty string on the right is the identity; needed to erase
the terminal step of `formatArticles`. -/
lemma string_append_empty (s : String) : s ++ "" = s := by
  cases s with
  | mk l => show String.mk (l ++ []) = String.mk l
            rw [List.append_nil]

/-- C3: for a response with status ok and at least five articles, the rendered
news text is the header followed by exactly five numbered entries, numbered 1
through 5, built in order from the first five articles, each carrying that
article title and source name. -/
theorem get_local_news_five_entries (location : String) (resp : NewsResp)
    (a1 a2 a3 a4 a5 : Article) (rest : List Article)
    (hs : resp.status = some "ok")
    (ha : resp.articles = some (a1 :: a2 :: a3 :: a4 :: a5 :: rest)) :
    get_local_news location resp =
      "\nTOP HEADLINES:\n" ++
        (newsEntry 1 a1 ++ (newsEntry 2 a2 ++ (newsEntry 3 a3 ++
          (newsEntry 4 a4 ++ newsEntry 5 a5)))) := by
  simp [get_local_news, hs, ha, formatArticles, List.take_succ_cons,
    string_append_empty]

/-- Witness for C3 at a concrete six-article response. -/
theorem get_local_news_five_entries_witness :
    get_local_news "london"
        ⟨some "ok", none,
          some [⟨"t1", "s1"⟩, ⟨"t2", "s2"⟩, ⟨"t3", "s3"⟩, ⟨"t4", "s4"⟩,
            ⟨"t5", "s5"⟩, ⟨"t6", "s6"⟩]⟩ =
      "\nTOP HEADLINES:\n" ++
        (newsEntry 1 ⟨"t1", "s1"⟩ ++ (newsEntry 2 ⟨"t2", "s2"⟩ ++
          (newsEntry 3 ⟨"t3", "s3"⟩ ++ (newsEntry 4 ⟨"t4", "s4"⟩ ++
            newsEntry 5 ⟨"t5", "s5"⟩)))) :=
  get_local_news_five_entries "london" _ _ _ _ _ _ _ rfl rfl

/-- C4: for a response with status ok and an empty article list, the news
result is the fixed no-news string, for every location. -/
theorem get_local_news_no_articles (location : String) (resp : NewsResp)
    (hs : resp.status = some "ok") (ha : resp.articles = some []) :
    get_local_news location resp = " No news available for this location" := by
  simp [get_local_news, hs, ha]

/-- Witness for C4 at a concrete response. -/
theorem get_local_news_no_articles_witness :
    get_local_news "berlin" ⟨some "ok", none, some []⟩ =
      " No news available for this location" :=
  get_local_news_no_articles "berlin" _ rfl rfl

/-- C10: a response with status ok that lacks the articles key entirely is
treated like zero articles: the result is the fixed no-news string and no
lookup error occurs. -/
theorem get_local_news_missing_articles (location : String) (resp : NewsResp)
    (hs : resp.status = some "ok") (ha : resp.articles = none) :
    get_local_news location resp = " No news available for this location" := by
  simp [get_local_news, hs, ha]

/-- Witness for C10 at a concrete response. -/
theorem get_local_news_missing_articles_witness :
    get_local_news "paris" ⟨some "ok", none, none⟩ =
      " No news available for this location" :=
  get_local_news_missing_articles "paris" _ rfl rfl

/-- One entry of the geocoding response array; `lat`, `lon`, `name` are
accessed as required keys.  The numeric coordinates only feed the weather
request URL, so they are carried as their rendered decimal strings. -/
structure GeoEntry where
  lat : String
  lon : String
  name : String
deriving DecidableEq

/-- The `main` object of the current-weather response; the numeric values are
carried as the decimal strings the f-string interpolation renders. -/
structure WeatherMain where
  temp : String
  feels_like : String
  humidity : String
deriving DecidableEq

/-- Decoded current-weather response: `cod` and `message` are read with
Python `dict.get` and so are `Option`s; `description` is
`weather[0].description` and `wind_speed` is `wind.speed`. -/
structure WeatherResp where
  cod : Option Int
  message : Option String
  main : WeatherMain
  description : String
  wind_speed : String
deriving DecidableEq

/-- Python `str.title()` on ASCII text: a cased letter is uppercased after a
non-letter and lowercased after a letter. -/
def pyTitleAux : Bool → List Char → List Char
  | _, [] => []
  | prevAlpha, c :: rest =>
    (if c.isAlpha then (if prevAlpha then c.toLower else c.toUpper) else c)
      :: pyTitleAux c.isAlpha rest

/-- Python `str.title()` as used on the weather description. -/
def pyTitle (s : String) : String := ⟨pyTitleAux false s.data⟩

def weatherPart1 : String :=
  "\n📍 Location: "
def weatherPart2 : String :=
  "\n🌡️  Temperature: "
def weatherPart3 : String :=
  "°C (feels like "
def weatherPart4 : String :=
  "°C)\n☁️  Conditions: "
def weatherPart5 : String :=
  "\n💧 Humidity: "
def weatherPart6 : String :=
  "%\n💨 Wind Speed: "
def weatherPart7 : String :=
  " m/s\n"

/-- `WeatherNewsAgent.get_weather_data`, with the decoded geocoding response
array and the decoded current-weather response passed explicitly.  An empty
geocoding array takes the early `Could not find location` return before the
weather request is made. -/
def get_weather_data (location : String) (geoData : List GeoEntry)
    (w : WeatherResp) : String :=
  match geoData with
  | [] => " Could not find location: " ++ location
  | g :: _ =>
    if w.cod ≠ some 200 then
      " Error fetching weather data: " ++ w.message.getD "Unknown error"
    else
      weatherPart1 ++ g.name ++ weatherPart2 ++ w.main.temp ++ weatherPart3 ++
        w.main.feels_like ++ weatherPart4 ++ pyTitle w.description ++
        weatherPart5 ++ w.main.humidity ++ weatherPart6 ++ w.wind_speed ++
        weatherPart7

/-- Literal segments of the `html_content` f-string in
`create_email_content`, in order around the four interpolations. -/
def htmlPart1 : String :=
  "\n<html>\n<head>\n    <style>\n        body \x7b font-family: \x27Segoe UI\x27, Tahoma, Geneva, Verdana, sans-serif; line-height: 1.6; color: #333; max-width: 600px; margin: 0 auto; padding: 20px; \x7d\n        .header \x7b background: linear-gradient(135deg, #667eea 0%, #764ba2 100%); color: white; padding: 30px; border-radius: 10px; text-align: center; \x7d\n        .content \x7b background-color: #f8f9fa; padding: 25px; border-radius: 10px; margin-top: 20px; \x7d\n        .weather-box \x7b background-color: #e3f2fd; padding: 20px; border-left: 4px solid #2196f3; margin: 20px 0; border-radius: 5px; \x7d\n        .news-box \x7b background-color: #fff3e0; padding: 20px; border-left: 4px solid #ff9800; margin: 20px 0; border-radius: 5px; \x7d\n        .footer \x7b background-color: #f1f3f4; padding: 15px; border-radius: 5px; margin-top: 20px; font-size: 12px; color: #666; \x7d\n        h1 \x7b margin: 0; font-size: 28px; \x7d\n        h2 \x7b color: #333; border-bottom: 2px solid #eee; padding-bottom: 10px; \x7d\n        .timestamp \x7b font-size: 14px; color: #666; margin-top: 10px; \x7d\n        ul \x7b padding-left: 20px; \x7d\n        li \x7b margin: 8px 0; \x7d\n        .highlight \x7b background-color: #fff; padding: 15px; border-radius: 5px; border: 1px solid #ddd; \x7d\n    </style>\n</head>\n<body>\n    <div class=\"header\">\n        <h1>Weather & News Report</h1>\n        <p style=\"margin: 10px 0 0 0; font-size: 18px;\">Your daily update for "
def htmlPart2 : String :=
  "</p>\n        <div class=\"timestamp\"> Generated on "
def htmlPart3 : String :=
  "</div>\n    </div>\n    \n    <div class=\"content\">\n        <div class=\"weather-box\">\n            <h2>Weather Information</h2>\n            <div class=\"highlight\">\n                "
def htmlPart4 : String :=
  "\n            </div>\n        </div>\n        \n        <div class=\"news-box\">\n            <h2>📰 Local & National News</h2>\n            <div class=\"highlight\">\n                "
def htmlPart5 : String :=
  "\n            </div>\n        </div>\n        \n        <div class=\"footer\">\n            <p><strong>🤖 Multi-Agent System</strong></p>\n            <p>This report was automatically generated by your multi-agent weather and news system.</p>\n            <p>For more detailed information, visit your local weather service and news websites.</p>\n        </div>\n    </div>\n</body>\n</html>\n"

/-- Literal segments of the `text_content` f-string in
`create_email_content`, in order around the four interpolations. -/
def textPart1 : String :=
  "\nWEATHER & NEWS REPORT\n=====================\n\nLocation: "
def textPart2 : String :=
  "\nGenerated: "
def textPart3 : String :=
  "\n\nWEATHER INFORMATION:\n"
def textPart4 : String :=
  "\n\nLOCAL & NATIONAL NEWS:\n"
def textPart5 : String :=
  "\n\n---\nThis report was automatically generated by your multi-agent weather and news system.\n"

/-- `WeatherNewsAgent.create_email_content`: a pure function of the location,
the weather text, the news text and the two render-time timestamps (the
source calls `datetime.now().strftime` once in the HTML body and once in the
plain-text body).  Returns the pair (HTML string, plain-text string). -/
def create_email_content (location weather_info news_info tsHtml tsText : String) :
    String × String :=
  (htmlPart1 ++ location ++ htmlPart2 ++ tsHtml ++ htmlPart3 ++ weather_info ++
     htmlPart4 ++ news_info ++ htmlPart5,
   textPart1 ++ location ++ textPart2 ++ tsText ++ textPart3 ++ weather_info ++
     textPart4 ++ news_info ++ textPart5)

/-- The characters of one string occur contiguously, in order, inside the
other: verbatim substring occurrence. -/
def occursIn (needle hay : String) : Prop :=
  ∃ a b : List Char, hay.data = a ++ needle.data ++ b

/-- The character data of an appended string is the appended character data. -/
lemma string_data_append (a b : String) : (a ++ b).data = a.data ++ b.data := by
  cases a
  cases b
  rfl

/-- C2: when the geocoding lookup returns no match, the weather component
returns the exact `Could not find location` message containing the input
location, and that message occurs verbatim in both the HTML and the
plain-text rendering of the report. -/
theorem weather_not_found_in_report (location news tsH tsT : String)
    (w : WeatherResp) :
    get_weather_data location [] w = " Could not find location: " ++ location ∧
    occursIn (" Could not find location: " ++ location)
      (create_email_content location (get_weather_data location [] w) news tsH tsT).1 ∧
    occursIn (" Could not find location: " ++ location)
      (create_email_content location (get_weather_data location [] w) news tsH tsT).2 := by
  refine ⟨rfl,
    ⟨(htmlPart1 ++ location ++ htmlPart2 ++ tsH ++ htmlPart3).data,
     (htmlPart4 ++ news ++ htmlPart5).data, ?_⟩,
    ⟨(textPart1 ++ location ++ textPart2 ++ tsT ++ textPart3).data,
     (textPart4 ++ news ++ textPart5).data, ?_⟩⟩ <;>
  simp [create_email_content, get_weather_data, string_data_append,
    List.append_assoc]

/-- C5: when the current-weather response has a status code other than 200
and carries a message, the weather component returns the fetch-error string
ending in exactly that message, so the result contains the provider message. -/
theorem weather_bad_status_message (location : String) (g : GeoEntry)
    (gs : List GeoEntry) (w : WeatherResp) (m : String)
    (hcod : w.cod ≠ some 200) (hm : w.message = some m) :
    get_weather_data location (g :: gs) w =
      " Error fetching weather data: " ++ m ∧
    occursIn m (get_weather_data location (g :: gs) w) := by
  have h1 : get_weather_data location (g :: gs) w =
      " Error fetching weather data: " ++ m := by
    simp [get_weather_data, hcod, hm]
  refine ⟨h1, ⟨(" Error fetching weather data: " : String).data, [], ?_⟩⟩
  rw [h1]
  simp [string_data_append]

/-- Witness for C5 at a concrete failing response. -/
theorem weather_bad_status_witness :
    get_weather_data "nowhere" [⟨"0", "0", "X"⟩]
        ⟨some 404, some "city not found", ⟨"", "", ""⟩, "", ""⟩ =
      " Error fetching weather data: " ++ "city not found" ∧
    occursIn "city not found"
      (get_weather_data "nowhere" [⟨"0", "0", "X"⟩]
        ⟨some 404, some "city not found", ⟨"", "", ""⟩, "", ""⟩) :=
  weather_bad_status_message "nowhere" _ _ _ _ (by decide) rfl

/-- Split a character list at newline characters; the result always has one
segment more than the number of newlines, so it is never empty. -/
def splitLines : List Char → List (List Char)
  | [] => [[]]
  | c :: rest =>
    if c = '\n' then [] :: splitLines rest
    else
      match splitLines rest with
      | [] => [[c]]
      | l :: ls => (c :: l) :: ls

lemma splitLines_ne_nil (xs : List Char) : splitLines xs ≠ [] := by
  cases xs with
  | nil => simp [splitLines]
  | cons c rest =>
    simp only [splitLines]
    split
    · simp
    · split <;> simp

lemma splitLines_cons_newline (xs : List Char) :
    splitLines ('\n' :: xs) = [] :: splitLines xs := by
  simp [splitLines]

lemma splitLines_no_newline (xs : List Char) (h : '\n' ∉ xs) :
    splitLines xs = [xs] := by
  induction xs with
  | nil => rfl
  | cons c rest ih =>
    simp only [List.mem_cons, not_or] at h
    obtain ⟨h1, h2⟩ := h
    simp only [splitLines]
    rw [if_neg (fun hc => h1 hc.symm), ih h2]

/-- Concatenation glues the last segment of the left part to the first
segment of the right part and keeps all other segments. -/
lemma splitLines_append (xs ys : List Char) (front : List (List Char))
    (mid hd : List Char) (tl : List (List Char))
    (h1 : splitLines xs = front ++ [mid]) (h2 : splitLines ys = hd :: tl) :
    splitLines (xs ++ ys) = front ++ (mid ++ hd) :: tl := by
  induction xs generalizing front mid with
  | nil =>
    cases front with
    | nil =>
      simp only [splitLines, List.nil_append] at h1
      obtain ⟨h1, -⟩ := List.cons.inj h1
      subst h1
      simpa using h2
    | cons f fs =>
      simp only [splitLines, List.cons_append] at h1
      obtain ⟨-, h1⟩ := List.cons.inj h1
      exact absurd h1.symm (List.append_ne_nil_of_right_ne_nil fs (by simp))
  | cons c rest ih =>
    by_cases hc : c = '\n'
    · subst hc
      rw [splitLines_cons_newline] at h1
      cases front with
      | nil =>
        obtain ⟨-, h1⟩ := List.cons.inj h1
        exact absurd h1 (splitLines_ne_nil rest)
      | cons f fs =>
        rw [List.cons_append] at h1
        have hf : ([] : List Char) = f := (List.cons.inj h1).1
        have htl : splitLines rest = fs ++ [mid] := (List.cons.inj h1).2
        subst hf
        rw [List.cons_append, splitLines_cons_newline, ih fs mid htl,
          List.cons_append]
    · cases hrest : splitLines rest with
      | nil => exact absurd hrest (splitLines_ne_nil rest)
      | cons l ls =>
        simp only [splitLines, if_neg hc, hrest] at h1
        have hstep : splitLines (c :: (rest ++ ys)) =
            match splitLines (rest ++ ys) with
            | [] => [[c]]
            | l :: ls => (c :: l) :: ls := by
          simp [splitLines, if_neg hc]
        cases front with
        | nil =>
          obtain ⟨hm, hls⟩ := List.cons.inj h1
          subst hls
          have hr : splitLines rest = ([] : List (List Char)) ++ [l] := by
            simpa using hrest
          rw [List.cons_append, hstep, ih [] l hr]
          simp [← hm]
        | cons f fs =>
          obtain ⟨hf, hls⟩ := List.cons.inj h1
          have hr : splitLines rest = (l :: fs) ++ [mid] := by
            rw [hrest, hls]; rfl
          rw [List.cons_append, hstep, ih (l :: fs) mid hr]
          simp [hf]

/-- The segment sandwiched after `front` is read back at index
`front.length`. -/
lemma splitLines_get_mid (front tl : List (List Char)) (x : List Char) :
    (front ++ x :: tl).get? front.length = some x := by
  induction front with
  | nil => rfl
  | cons f fs ih => simpa using ih

/-- Away from index `front.length`, the sandwiched segment is invisible. -/
lemma splitLines_get_ne (front tl : List (List Char)) (x y : List Char)
    (i : Nat) (hi : i ≠ front.length) :
    (front ++ x :: tl).get? i = (front ++ y :: tl).get? i := by
  induction front generalizing i with
  | nil =>
    cases i with
    | zero => exact absurd rfl hi
    | succ j => rfl
  | cons f fs ih =>
    cases i with
    | zero => rfl
    | succ j =>
      have hj : j ≠ fs.length := fun h => hi (by simp [h])
      simpa using ih j hj

/-- A three-part concatenation with a newline-free middle: the middle lands
entirely inside the single line joining the two outer parts. -/
lemma splitLines_three (A ts B : List Char) (front : List (List Char))
    (mid hd : List Char) (tl : List (List Char))
    (hA : splitLines A = front ++ [mid]) (hts : '\n' ∉ ts)
    (hB : splitLines B = hd :: tl) :
    splitLines (A ++ ts ++ B) = front ++ (mid ++ ts ++ hd) :: tl := by
  have h1 : splitLines (ts ++ B) = (ts ++ hd) :: tl := by
    have := splitLines_append ts B [] ts hd tl
      (by rw [splitLines_no_newline ts hts]; rfl) hB
    simpa using this
  have h2 := splitLines_append A (ts ++ B) front mid (ts ++ hd) tl hA h1
  rw [List.append_assoc, h2]
  simp [List.append_assoc]

/-- A nonempty list of segments splits off its last element. -/
lemma exists_front_last (x : List Char) (L : List (List Char)) :
    ∃ f m, x :: L = f ++ [m] := by
  induction L generalizing x with
  | nil => exact ⟨[], x, rfl⟩
  | cons b bs ih =>
    obtain ⟨f, m, hf⟩ := ih b
    exact ⟨x :: f, m, by rw [hf]; rfl⟩

/-- C6: two formatter runs with identical location, weather text and news
text but different captured timestamps yield plain-text outputs whose line
lists have equal length and agree at every index except one, and at that one
index each output holds its own Generated timestamp line. -/
theorem report_text_differs_only_in_timestamp
    (loc w n tsH tsH2 ts ts2 : String)
    (hts : '\n' ∉ ts.data) (hts2 : '\n' ∉ ts2.data) :
    ∃ k : Nat,
      (splitLines (create_email_content loc w n tsH ts).2.data).length =
        (splitLines (create_email_content loc w n tsH2 ts2).2.data).length ∧
      (splitLines (create_email_content loc w n tsH ts).2.data).get? k =
        some ("Generated: ".data ++ ts.data) ∧
      (splitLines (create_email_content loc w n tsH2 ts2).2.data).get? k =
        some ("Generated: ".data ++ ts2.data) ∧
      ∀ i : Nat, i ≠ k →
        (splitLines (create_email_content loc w n tsH ts).2.data).get? i =
          (splitLines (create_email_content loc w n tsH2 ts2).2.data).get? i := by
  obtain ⟨front0, mid0, hfront0⟩ : ∃ f m,
      splitLines (textPart1 ++ loc).data = f ++ [m] := by
    cases hsl : splitLines (textPart1 ++ loc).data with
    | nil => exact absurd hsl (splitLines_ne_nil _)
    | cons x L => exact exists_front_last x L
  have hA : splitLines ((textPart1 ++ loc) ++ textPart2).data =
      (front0 ++ [mid0]) ++ ["Generated: ".data] := by
    rw [string_data_append]
    rw [splitLines_append (textPart1 ++ loc).data textPart2.data front0 mid0
      ([] : List Char) ["Generated: ".data] hfront0 (by decide)]
    simp
  have hBd : splitLines (textPart3.data ++ w.data ++ textPart4.data ++
        n.data ++ textPart5.data) =
      [] :: splitLines ("\nWEATHER INFORMATION:\n".data ++ w.data ++
        textPart4.data ++ n.data ++ textPart5.data) := by
    have h3 : textPart3.data = '\n' :: "\nWEATHER INFORMATION:\n".data := by
      decide
    rw [h3]
    simp only [List.cons_append]
    rw [splitLines_cons_newline]
  have hdecomp : ∀ tshx tsx : String,
      (create_email_content loc w n tshx tsx).2.data =
        ((textPart1 ++ loc) ++ textPart2).data ++ tsx.data ++
          (textPart3.data ++ w.data ++ textPart4.data ++ n.data ++
            textPart5.data) := by
    intro tshx tsx
    simp [create_email_content, string_data_append, List.append_assoc]
  have hsplit : ∀ tshx tsx : String, '\n' ∉ tsx.data →
      splitLines (create_email_content loc w n tshx tsx).2.data =
        (front0 ++ [mid0]) ++ ("Generated: ".data ++ tsx.data) ::
          splitLines ("\nWEATHER INFORMATION:\n".data ++ w.data ++
            textPart4.data ++ n.data ++ textPart5.data) := by
    intro tshx tsx htsx
    rw [hdecomp tshx tsx]
    rw [splitLines_three _ _ _ (front0 ++ [mid0]) "Generated: ".data
      ([] : List Char) _ hA htsx hBd]
    simp
  refine ⟨(front0 ++ [mid0]).length, ?_, ?_, ?_, ?_⟩
  · rw [hsplit tsH ts hts, hsplit tsH2 ts2 hts2]
    simp
  · rw [hsplit tsH ts hts]
    exact splitLines_get_mid _ _ _
  · rw [hsplit tsH2 ts2 hts2]
    exact splitLines_get_mid _ _ _
  · intro i hi
    rw [hsplit tsH ts hts, hsplit tsH2 ts2 hts2]
    exact splitLines_get_ne _ _ _ _ i hi

/-- Witness for C6 at concrete inputs with two different timestamps. -/
theorem report_text_timestamp_witness :
    ('\n' ∉ ("May 01, 2025 at 09:00 AM").data) ∧
    ('\n' ∉ ("May 02, 2025 at 10:30 PM").data) ∧
    (∃ k : Nat,
      (splitLines (create_email_content "London" "sunny" "headlines" "h1"
          "May 01, 2025 at 09:00 AM").2.data).length =
        (splitLines (create_email_content "London" "sunny" "headlines" "h2"
          "May 02, 2025 at 10:30 PM").2.data).length ∧
      (splitLines (create_email_content "London" "sunny" "headlines" "h1"
          "May 01, 2025 at 09:00 AM").2.data).get? k =
        some ("Generated: ".data ++ ("May 01, 2025 at 09:00 AM").data) ∧
      (splitLines (create_email_content "London" "sunny" "headlines" "h2"
          "May 02, 2025 at 10:30 PM").2.data).get? k =
        some ("Generated: ".data ++ ("May 02, 2025 at 10:30 PM").data) ∧
      ∀ i : Nat, i ≠ k →
        (splitLines (create_email_content "London" "sunny" "headlines" "h1"
            "May 01, 2025 at 09:00 AM").2.data).get? i =
          (splitLines (create_email_content "London" "sunny" "headlines" "h2"
            "May 02, 2025 at 10:30 PM").2.data).get? i) :=
  ⟨by decide, by decide,
    report_text_differs_only_in_timestamp "London" "sunny" "headlines"
      "h1" "h2" "May 01, 2025 at 09:00 AM" "May 02, 2025 at 10:30 PM"
      (by decide) (by decide)⟩

/-- Outcome of the effectful steps inside the `try` block of
`send_report_email`, in program order: building/attaching the multipart
message, opening the SMTP connection, the STARTTLS upgrade, `login`, and
`sendmail`.  `none` models normal completion of that step and `some e` models
an exception raised there with text `e`. -/
structure SmtpRun where
  buildExc : Option String
  connectExc : Option String
  starttlsExc : Option String
  loginExc : Option String
  sendmailExc : Option String
deriving DecidableEq

/-- Run one step: it either completes or raises. -/
def step (o : Option String) : Except String Unit :=
  match o with
  | some e => Except.error e
  | none => Except.ok ()

/-- Sequencing of two steps: a raised exception aborts, skipping the rest. -/
def exSeq (a b : Except String Unit) : Except String Unit :=
  match a with
  | Except.error e => Except.error e
  | Except.ok _ => b

/-- The `try` block of `send_report_email`: the five steps in sequence, the
first raised exception aborting the rest. -/
def trySend (r : SmtpRun) : Except String Unit :=
  exSeq (step r.buildExc) (exSeq (step r.connectExc)
    (exSeq (step r.starttlsExc) (exSeq (step r.loginExc)
      (step r.sendmailExc))))

/-- `WeatherNewsAgent.send_report_email`: the boolean result paired with the
lines printed to the terminal.  The `except` clause turns any raised
exception into a printed message and the return value `False`. -/
def send_report_email (r : SmtpRun) : Bool × List String :=
  match trySend r with
  | Except.ok _ => (true, [])
  | Except.error e => (false, [" Error sending email: " ++ e])

/-- C7: the mailer always returns a boolean: `true` exactly when every step of
the build/connect/STARTTLS/login/send sequence completes, and for an
exception raised at any step it returns `false` with the exception logged to
the terminal, never propagating and never retrying. -/
theorem send_report_email_catches (r : SmtpRun) :
    ((send_report_email r).1 = true ↔
      (r.buildExc = none ∧ r.connectExc = none ∧ r.starttlsExc = none ∧
        r.loginExc = none ∧ r.sendmailExc = none)) ∧
    (∀ e : String, trySend r = Except.error e →
      send_report_email r = (false, [" Error sending email: " ++ e])) ∧
    ((send_report_email r).1 = true ∨ (send_report_email r).1 = false) := by
  obtain ⟨b, c, st, l, sm⟩ := r
  cases b <;> cases c <;> cases st <;> cases l <;> cases sm <;>
    simp [send_report_email, trySend, exSeq, step]

/-- Witness for C7 at a run whose STARTTLS step raises. -/
theorem send_report_email_catches_witness :
    send_report_email ⟨none, none, some "connection refused", none, none⟩ =
      (false, [" Error sending email: " ++ "connection refused"]) :=
  (send_report_email_catches
      ⟨none, none, some "connection refused", none, none⟩).2.1
    "connection refused" rfl

/-- The fixed mock weather block sent by the placeholder branch of `main`. -/
def mock_weather : String :=
  "\n📍 Location: Demo City\n🌡️  Temperature: 22°C (feels like 24°C)\n☁️  Conditions: Partly Cloudy\n💧 Humidity: 65%\n💨 Wind Speed: 5.2 m/s\n"

/-- The fixed mock news block sent by the placeholder branch of `main`. -/
def mock_news : String :=
  "\n📰 TOP HEADLINES:\n\n1. Breaking: Major weather update for your area\n   Source: National Weather Service\n\n2. Local sports team wins championship\n   Source: Sports Network\n\n3. National economy shows growth\n   Source: Financial Times\n\n4. Technology sector announces new developments\n   Source: Tech Daily\n\n5. Health updates and community news\n   Source: Local News\n"

/-- The two branches `main` can take after constructing the agent: send the
fixed mock report, or run the live fetch-and-send sequence. -/
inductive DriverAction where
  | sendMock (weather news : String)
  | runLive
deriving DecidableEq

/-- The branch decision of `main`: the configured weather API key (from the
environment, hence an `Option`) is compared with the literal placeholder; the
news API key is read into the configuration but never consulted. -/
def mainAction (weatherKey newsKey : Option String) : DriverAction :=
  if weatherKey = some "YOUR_OPENWEATHER_API_KEY" then
    DriverAction.sendMock mock_weather mock_news
  else DriverAction.runLive

/-- C8: `main` takes the mock branch, with the fixed mock weather and news
blocks, exactly when the weather API key equals the literal placeholder
string, and the decision is independent of the news API key. -/
theorem main_mock_iff_weather_placeholder (wk nk nk2 : Option String) :
    (mainAction wk nk = DriverAction.sendMock mock_weather mock_news ↔
      wk = some "YOUR_OPENWEATHER_API_KEY") ∧
    mainAction wk nk = mainAction wk nk2 := by
  constructor
  · unfold mainAction
    split_ifs with h
    · simp [h]
    · simp [h]
  · rfl
